import Mathlib

/-!
Verification of the keystroke-injection engine in `src/main.c` (Zephyr
firmware presenting a USB composite HID device driven by a BLE byte stream).

The engine is shallowly embedded:
* `ascii_to_hid` and `needs_shift` are direct transcriptions of the two C
  lookup functions (bytes are `Nat` in the range 0..255; the C `-1` failure
  result becomes `Option.none`).
* `write_hid` is the C scanning/dispatch loop, rendered as a function from an
  input byte list to the list of externally observable events (endpoint
  writes, sleeps, semaphore operations, out-of-bounds stores of the two fixed
  256-byte `static char` buffers).  The C `hid_int_ep_write` return value is
  supplied by an oracle `o : Nat -> Bool` indexed by the number of endpoint
  writes performed so far (`o w = true` means the w-th write returns an
  error).  A `fuel` parameter makes the recursion structural: every scanner
  step consumes one unit, and all theorems quantify over fuel shapes that the
  relevant path actually uses, so fuel exhaustion is never hit inside a
  stated equation.
* The C `open_url` is mutually recursive with `write_hid` (it re-enters the
  scanner on the built shell command).  To keep the recursion structural its
  body is inlined at the two call sites inside `write_hid` (directives `r`
  and `u`), and the standalone `open_url` below is definitionally equal to
  that inlined body (`write_hid_u_eq_open_url` is proved by `rfl`).
Byte value 0 inside a buffer is not modelled as a C string terminator; the
inputs considered by the claims are NUL-free.
-/

namespace RevengeTool

/-! Zephyr HID usage-code and modifier constants used by `main.c`. -/

def HID_KEY_SPACE : Nat := 44
def HID_KEY_0 : Nat := 39
def HID_KEY_1 : Nat := 30
def HID_KEY_2 : Nat := 31
def HID_KEY_3 : Nat := 32
def HID_KEY_4 : Nat := 33
def HID_KEY_5 : Nat := 34
def HID_KEY_6 : Nat := 35
def HID_KEY_7 : Nat := 36
def HID_KEY_8 : Nat := 37
def HID_KEY_9 : Nat := 38
def HID_KEY_APOSTROPHE : Nat := 52
def HID_KEY_EQUAL : Nat := 46
def HID_KEY_COMMA : Nat := 54
def HID_KEY_MINUS : Nat := 45
def HID_KEY_DOT : Nat := 55
def HID_KEY_SLASH : Nat := 56
def HID_KEY_SEMICOLON : Nat := 51
def HID_KEY_LEFTBRACE : Nat := 47
def HID_KEY_BACKSLASH : Nat := 49
def HID_KEY_RIGHTBRACE : Nat := 48
def HID_KEY_GRAVE : Nat := 53
def HID_KEY_DELETE : Nat := 76
def HID_KEY_T : Nat := 23
def HID_KEY_ENTER : Nat := 40
def HID_KEY_CAPSLOCK : Nat := 57

def HID_KBD_MODIFIER_LEFT_CTRL : Nat := 1
def HID_KBD_MODIFIER_LEFT_ALT : Nat := 4
def HID_KBD_MODIFIER_RIGHT_SHIFT : Nat := 32

/-- Embedding of `static int ascii_to_hid(uint8_t ascii)` from `main.c`
(lines 140-252).  The C function returns -1 for unsupported bytes, rendered
here as `none`. -/
def ascii_to_hid (ascii : Nat) : Option Nat :=
  if ascii < 32 then
    none
  else if ascii < 48 then
    match ascii with
    | 32 => some HID_KEY_SPACE
    | 33 => some HID_KEY_1
    | 34 => some HID_KEY_APOSTROPHE
    | 35 => some HID_KEY_3
    | 36 => some HID_KEY_4
    | 37 => some HID_KEY_5
    | 38 => some HID_KEY_7
    | 39 => some HID_KEY_APOSTROPHE
    | 40 => some HID_KEY_9
    | 41 => some HID_KEY_0
    | 42 => some HID_KEY_8
    | 43 => some HID_KEY_EQUAL
    | 44 => some HID_KEY_COMMA
    | 45 => some HID_KEY_MINUS
    | 46 => some HID_KEY_DOT
    | 47 => some HID_KEY_SLASH
    | _ => none
  else if ascii < 58 then
    if ascii = 48 then some HID_KEY_0 else some (ascii - 19)
  else if ascii < 65 then
    match ascii with
    | 58 => some HID_KEY_SEMICOLON
    | 59 => some HID_KEY_SEMICOLON
    | 60 => some HID_KEY_COMMA
    | 61 => some HID_KEY_EQUAL
    | 62 => some HID_KEY_DOT
    | 63 => some HID_KEY_SLASH
    | 64 => some HID_KEY_2
    | _ => none
  else if ascii < 91 then
    some (ascii - 61)
  else if ascii < 97 then
    match ascii with
    | 91 => some HID_KEY_LEFTBRACE
    | 92 => some HID_KEY_BACKSLASH
    | 93 => some HID_KEY_RIGHTBRACE
    | 94 => some HID_KEY_6
    | 95 => some HID_KEY_MINUS
    | 96 => some HID_KEY_GRAVE
    | _ => none
  else if ascii < 123 then
    some (ascii - 93)
  else if ascii < 128 then
    match ascii with
    | 123 => some HID_KEY_LEFTBRACE
    | 124 => some HID_KEY_BACKSLASH
    | 125 => some HID_KEY_RIGHTBRACE
    | 126 => some HID_KEY_GRAVE
    | 127 => some HID_KEY_DELETE
    | _ => none
  else
    none

/-- Embedding of `static bool needs_shift(uint8_t ascii)` from `main.c`
(lines 254-277). -/
def needs_shift (ascii : Nat) : Bool :=
  if ascii < 33 || ascii == 39 then
    false
  else if 33 ≤ ascii && ascii < 44 then
    true
  else if 44 ≤ ascii && ascii < 58 then
    false
  else if ascii == 59 || ascii == 61 then
    false
  else if 58 ≤ ascii && ascii < 91 then
    true
  else if 91 ≤ ascii && ascii < 94 then
    false
  else if ascii == 94 || ascii == 95 then
    true
  else if 95 < ascii && ascii < 123 then
    false
  else if 122 < ascii && ascii < 127 then
    true
  else
    false

/-- Combined translator contract of the spec: byte to (shift?, usage), `none`
when unsupported.  Pairs the two source functions, which the spec describes
as one `translate` operation. -/
def translate (b : Nat) : Option (Bool × Nat) :=
  (ascii_to_hid b).map (fun k => (needs_shift b, k))

/-- Reference US-QWERTY table, written out from the standard layout (spec
section 8: a defined (modifier, usage) pair for every printable byte).  Each
entry is (shift needed, HID usage id).  This table is the specification-side
object the code is compared against; it is deliberately a flat enumeration
rather than mirroring the arithmetic of the code. -/
def usQwerty : Nat → Option (Bool × Nat)
  | 32 => some (false, 44)   -- space
  | 33 => some (true, 30)    -- bang = shift digit1
  | 34 => some (true, 52)    -- double quote = shift quote
  | 35 => some (true, 32)    -- hash = shift digit3
  | 36 => some (true, 33)    -- dollar = shift digit4
  | 37 => some (true, 34)    -- percent = shift digit5
  | 38 => some (true, 36)    -- ampersand = shift digit7
  | 39 => some (false, 52)   -- quote
  | 40 => some (true, 38)    -- open paren = shift digit9
  | 41 => some (true, 39)    -- close paren = shift digit0
  | 42 => some (true, 37)    -- star = shift digit8
  | 43 => some (true, 46)    -- plus = shift equal
  | 44 => some (false, 54)   -- comma
  | 45 => some (false, 45)   -- hyphen
  | 46 => some (false, 55)   -- period
  | 47 => some (false, 56)   -- forward slash
  | 48 => some (false, 39)   -- digit0
  | 49 => some (false, 30)   -- digit1
  | 50 => some (false, 31)   -- digit2
  | 51 => some (false, 32)   -- digit3
  | 52 => some (false, 33)   -- digit4
  | 53 => some (false, 34)   -- digit5
  | 54 => some (false, 35)   -- digit6
  | 55 => some (false, 36)   -- digit7
  | 56 => some (false, 37)   -- digit8
  | 57 => some (false, 38)   -- digit9
  | 58 => some (true, 51)    -- colon = shift semicolon
  | 59 => some (false, 51)   -- semicolon
  | 60 => some (true, 54)    -- less than = shift comma
  | 61 => some (false, 46)   -- equals
  | 62 => some (true, 55)    -- greater than = shift period
  | 63 => some (true, 56)    -- question mark = shift slash
  | 64 => some (true, 31)    -- at sign = shift digit2
  | 65 => some (true, 4)     -- upper A
  | 66 => some (true, 5)
  | 67 => some (true, 6)
  | 68 => some (true, 7)
  | 69 => some (true, 8)
  | 70 => some (true, 9)
  | 71 => some (true, 10)
  | 72 => some (true, 11)
  | 73 => some (true, 12)
  | 74 => some (true, 13)
  | 75 => some (true, 14)
  | 76 => some (true, 15)
  | 77 => some (true, 16)
  | 78 => some (true, 17)
  | 79 => some (true, 18)
  | 80 => some (true, 19)
  | 81 => some (true, 20)
  | 82 => some (true, 21)
  | 83 => some (true, 22)
  | 84 => some (true, 23)
  | 85 => some (true, 24)
  | 86 => some (true, 25)
  | 87 => some (true, 26)
  | 88 => some (true, 27)
  | 89 => some (true, 28)
  | 90 => some (true, 29)    -- upper Z
  | 91 => some (false, 47)   -- open bracket
  | 92 => some (false, 49)   -- backslash
  | 93 => some (false, 48)   -- close bracket
  | 94 => some (true, 35)    -- caret = shift digit6
  | 95 => some (true, 45)    -- underscore = shift hyphen
  | 96 => some (false, 53)   -- backtick
  | 97 => some (false, 4)    -- lower a
  | 98 => some (false, 5)
  | 99 => some (false, 6)
  | 100 => some (false, 7)
  | 101 => some (false, 8)
  | 102 => some (false, 9)
  | 103 => some (false, 10)
  | 104 => some (false, 11)
  | 105 => some (false, 12)
  | 106 => some (false, 13)
  | 107 => some (false, 14)
  | 108 => some (false, 15)
  | 109 => some (false, 16)
  | 110 => some (false, 17)
  | 111 => some (false, 18)
  | 112 => some (false, 19)
  | 113 => some (false, 20)
  | 114 => some (false, 21)
  | 115 => some (false, 22)
  | 116 => some (false, 23)
  | 117 => some (false, 24)
  | 118 => some (false, 25)
  | 119 => some (false, 26)
  | 120 => some (false, 27)
  | 121 => some (false, 28)
  | 122 => some (false, 29)  -- lower z
  | 123 => some (true, 47)   -- open brace = shift open bracket
  | 124 => some (true, 49)   -- pipe = shift backslash
  | 125 => some (true, 48)   -- close brace = shift close bracket
  | 126 => some (true, 53)   -- tilde = shift backtick
  | _ => none

/-! Fixed report constants from `main.c` (lines 300-321). -/

/-- Keyboard all-zero "released" report `kbd_clear`. -/
def kbd_clear : List Nat := [0, 0, 0, 0, 0, 0, 0, 0]

/-- Caps Lock toggle report `toggle_caps_lock` (lines 305-308): the usage
code sits in the last byte of the array in the source. -/
def toggle_caps_lock : List Nat := [0, 0, 0, 0, 0, 0, 0, HID_KEY_CAPSLOCK]

/-- Enter report `enter_cmd` (lines 310-313). -/
def enter_cmd : List Nat := [0, 0, HID_KEY_ENTER, 0, 0, 0, 0, 0]

/-- Ctrl+Alt+T report `open_terminal_cmd` (lines 316-321). -/
def open_terminal_cmd : List Nat :=
  [HID_KBD_MODIFIER_LEFT_CTRL ||| HID_KBD_MODIFIER_LEFT_ALT, 0, HID_KEY_T,
   0, 0, 0, 0, 0]

/-- Byte list of the literal string passed to `open_url` by the `r`
directive in `write_hid` (line 340). -/
def fixed_url : List Nat :=
  "https://www.youtube.com/watch?v=xvFZjo5PgG0".toList.map Char.toNat

/-- Byte list of the shell command head produced by
`sprintf(cmd, "xdg-open %s", url)` in `open_url` (line 465). -/
def xdgOpen : List Nat := "xdg-open ".toList.map Char.toNat

/-- Externally observable events of the engine.  `epWrite report ok` is one
`hid_int_ep_write` call on the keyboard interface whose result is success
(`ok = true`) or error; `sleep` is `k_sleep` in milliseconds; `semGive` and
`semTake` are `k_sem_give` and `k_sem_take` on `usb_sem`; `oobStore cap idx`
records a store at index `idx` of a fixed buffer of capacity `cap`, emitted
exactly when the store is out of bounds (`cap ≤ idx`), i.e. the error branch
of a bounds-checked rendering of the C `memcpy`/`sprintf` into the two
`static char [256]` buffers. -/
inductive Ev
  | epWrite (report : List Nat) (ok : Bool)
  | sleep (ms : Nat)
  | semGive
  | semTake
  | oobStore (cap idx : Nat)
deriving DecidableEq, Repr

/-- Initial count of `K_SEM_DEFINE(usb_sem, 1, 1)` (line 120): the token
starts available. -/
def usb_sem_initial_count : Nat := 1

/-- Embedding of the external endpoint-ready callback `in_ready_cb`
(lines 130-134): it only gives the semaphore. -/
def in_ready_cb : List Ev := [Ev.semGive]

/-- Report built for a press of byte `b` whose translation is `key`
(`write_hid` lines 364-370): shift modifier when `needs_shift`, usage code
in report byte index 2. -/
def press_report (b key : Nat) : List Nat :=
  [if needs_shift b then HID_KBD_MODIFIER_RIGHT_SHIFT else 0,
   0, key, 0, 0, 0, 0, 0]

/-- Embedding of `send_enter` (lines 481-486): write `enter_cmd`, sleep,
write `kbd_clear`; both return values are ignored by the source.  `o` is the
write-failure oracle, `w` the number of endpoint writes performed so far;
returns the emitted events and the new write count. -/
def send_enter (o : Nat → Bool) (w : Nat) : List Ev × Nat :=
  ([Ev.epWrite enter_cmd (!o w), Ev.sleep 10,
    Ev.epWrite kbd_clear (!o (w + 1))], w + 2)

/-- Embedding of `open_terminal` (lines 474-479): write `open_terminal_cmd`,
sleep, write `kbd_clear`; both return values are ignored by the source. -/
def open_terminal (o : Nat → Bool) (w : Nat) : List Ev × Nat :=
  ([Ev.epWrite open_terminal_cmd (!o w), Ev.sleep 10,
    Ev.epWrite kbd_clear (!o (w + 1))], w + 2)

/-- Shared tail of one loop iteration of `write_hid` (lines 379-390): sleep,
write the release report, abort the loop if that write fails, else sleep
again.  The boolean result is the continue flag. -/
def common_release (o : Nat → Bool) (w : Nat) : List Ev × Nat × Bool :=
  if !o w then
    ([Ev.sleep 10, Ev.epWrite kbd_clear true, Ev.sleep 10], w + 1, true)
  else
    ([Ev.sleep 10, Ev.epWrite kbd_clear false], w + 1, false)

/-- Literal-byte branch of `write_hid` (lines 359-390): unsupported bytes
are skipped with no report; otherwise the press report is written (aborting
on error) and the shared release tail runs.  The boolean result is the
continue flag. -/
def press_byte (o : Nat → Bool) (b w : Nat) : List Ev × Nat × Bool :=
  match ascii_to_hid b with
  | none => ([], w, true)
  | some key =>
    if !o w then
      let r := common_release o (w + 1)
      (Ev.epWrite (press_report b key) true :: r.1, r.2)
    else
      ([Ev.epWrite (press_report b key) false], w + 1, false)

/-- Embedding of `static void write_hid(const char *data, size_t size)`
(lines 328-392), as a function from the input byte list to the event trace
and final write count.  The C index scan is rendered as list recursion: the
marker test `i < size - 1 && data[i] == 0x5C` corresponds to the
two-or-more-elements pattern with head 92.  The bodies of the two C calls to
`open_url` (directives `r` and `u`) are inlined so that the recursion is
structural on `fuel`; `open_url` below is definitionally the same body.
The `u` directive first performs the `memcpy`/NUL store into the 256-byte
`url` buffer (out of bounds exactly when the remainder length reaches 256)
and then runs `open_url` on the remainder and returns. -/
def write_hid : Nat → (Nat → Bool) → List Nat → Nat → List Ev × Nat
  | 0, _, _, w => ([], w)
  | _ + 1, _, [], w => ([], w)
  | _ + 1, o, [b], w =>
    let r := press_byte o b w
    (r.1, r.2.1)
  | fuel + 1, o, b :: c :: rest, w =>
    if b = 92 then
      if c = 110 then
        let r1 := send_enter o w
        let r2 := common_release o r1.2
        if r2.2.2 then
          let r3 := write_hid fuel o rest r2.2.1
          (r1.1 ++ r2.1 ++ r3.1, r3.2)
        else
          (r1.1 ++ r2.1, r2.2.1)
      else if c = 116 then
        let r1 := open_terminal o w
        let r2 := common_release o r1.2
        if r2.2.2 then
          let r3 := write_hid fuel o rest r2.2.1
          (r1.1 ++ r2.1 ++ r3.1, r3.2)
        else
          (r1.1 ++ r2.1, r2.2.1)
      else if c = 114 then
        let oobU := if 247 ≤ fixed_url.length then
          [Ev.oobStore 256 (9 + fixed_url.length)] else []
        let r1 := open_terminal o w
        let r2 := write_hid fuel o (xdgOpen ++ fixed_url) r1.2
        let r3 := send_enter o r2.2
        let t1 := oobU ++ r1.1 ++ [Ev.sleep 1500] ++ r2.1 ++ [Ev.sleep 10] ++ r3.1
        let rc := common_release o r3.2
        if rc.2.2 then
          let r4 := write_hid fuel o rest rc.2.1
          (t1 ++ rc.1 ++ r4.1, r4.2)
        else
          (t1 ++ rc.1, rc.2.1)
      else if c = 99 then
        let e1 := Ev.epWrite toggle_caps_lock (!o w)
        let r2 := common_release o (w + 1)
        if r2.2.2 then
          let r3 := write_hid fuel o rest r2.2.1
          (e1 :: r2.1 ++ r3.1, r3.2)
        else
          (e1 :: r2.1, r2.2.1)
      else if c = 115 then
        let r3 := write_hid fuel o rest w
        (Ev.sleep 1000 :: r3.1, r3.2)
      else if c = 117 then
        let oob := if 256 ≤ rest.length then
          [Ev.oobStore 256 rest.length] else []
        let oobU := if 247 ≤ rest.length then
          [Ev.oobStore 256 (9 + rest.length)] else []
        let r1 := open_terminal o w
        let r2 := write_hid fuel o (xdgOpen ++ rest) r1.2
        let r3 := send_enter o r2.2
        (oob ++ oobU ++ r1.1 ++ [Ev.sleep 1500] ++ r2.1 ++ [Ev.sleep 10] ++ r3.1,
         r3.2)
      else
        write_hid fuel o (c :: rest) w
    else
      let r := press_byte o b w
      if r.2.2 then
        let r2 := write_hid fuel o (c :: rest) r.2.1
        (r.1 ++ r2.1, r2.2)
      else
        (r.1, r.2.1)

/-- Embedding of `static void open_url(const char *url)` (lines 462-472):
build `xdg-open <url>` in the 256-byte `cmd` buffer (the `sprintf` store is
out of bounds exactly when 9 + url length + 1 exceeds 256, i.e. when the url
has 247 bytes or more), then open a terminal, sleep 1500 ms, type the
command through `write_hid`, sleep, send Enter. -/
def open_url (fuel : Nat) (o : Nat → Bool) (url : List Nat) (w : Nat) :
    List Ev × Nat :=
  let oobU := if 247 ≤ url.length then
    [Ev.oobStore 256 (9 + url.length)] else []
  let r1 := open_terminal o w
  let r2 := write_hid fuel o (xdgOpen ++ url) r1.2
  let r3 := send_enter o r2.2
  (oobU ++ r1.1 ++ [Ev.sleep 1500] ++ r2.1 ++ [Ev.sleep 10] ++ r3.1, r3.2)

/-- Oracle under which every endpoint write succeeds. -/
def allOk : Nat → Bool := fun _ => false

/-- Event recognizer: endpoint writes. -/
def is_ep_write : Ev → Bool
  | Ev.epWrite _ _ => true
  | _ => false

/-- Event recognizer: semaphore acquisitions. -/
def is_sem_take : Ev → Bool
  | Ev.semTake => true
  | _ => false

/-- Press-and-release event block emitted for one successfully translated
literal byte under a succeeding oracle. -/
def press_events (b key : Nat) : List Ev :=
  [Ev.epWrite (press_report b key) true, Ev.sleep 10,
   Ev.epWrite kbd_clear true, Ev.sleep 10]

theorem write_hid_nil (fuel : Nat) (o : Nat → Bool) (w : Nat) :
    write_hid fuel o [] w = ([], w) := by
  cases fuel <;> rfl

/-- Sanity: the inlined `u`-directive body of `write_hid` is exactly the
`memcpy` bounds event followed by `open_url` on the buffer remainder. -/
theorem write_hid_u_eq_open_url (fuel : Nat) (o : Nat → Bool)
    (rest : List Nat) (w : Nat) :
    write_hid (fuel + 1) o (92 :: 117 :: rest) w =
      ((if 256 ≤ rest.length then [Ev.oobStore 256 rest.length] else []) ++
        (open_url fuel o rest w).1, (open_url fuel o rest w).2) := by
  simp [write_hid, open_url]

/-- C1: the spec requires the Dispatcher to take the USB flow-control
semaphore exactly once before each endpoint write.  The code never calls
`k_sem_take` at all: dispatching the single byte 0x61 performs two endpoint
writes and zero semaphore acquisitions, although the semaphore is defined
(initially available) and released by the endpoint-ready callback. -/
theorem c1_writes_without_token_acquire :
    (write_hid 2 allOk [97] 0).1.countP is_ep_write = 2 ∧
    (write_hid 2 allOk [97] 0).1.countP is_sem_take = 0 ∧
    usb_sem_initial_count = 1 ∧ in_ready_cb = [Ev.semGive] := by
  decide

/-- C2 counterexample: the claim puts the Caps Lock usage code at report
byte index 2, but in the source `toggle_caps_lock` byte 2 is zero and the
usage code sits at byte index 7. -/
theorem c2_counterexample :
    toggle_caps_lock.get? 2 = some 0 ∧
    toggle_caps_lock.get? 7 = some HID_KEY_CAPSLOCK ∧
    HID_KEY_CAPSLOCK ≠ 0 := by
  decide

/-- C2 amended: the Enter report places its usage code at key-slot index 2
with every other byte zero, while the Caps Lock toggle report places its
usage code in the final byte (index 7) with every other byte zero. -/
theorem c2_amended :
    enter_cmd = [0, 0, HID_KEY_ENTER, 0, 0, 0, 0, 0] ∧
    toggle_caps_lock = [0, 0, 0, 0, 0, 0, 0, HID_KEY_CAPSLOCK] ∧
    HID_KEY_ENTER = 40 ∧ HID_KEY_CAPSLOCK = 57 := by
  decide

/-- C3 counterexample: on the buffer 0x5C 0x78 (marker then letter x, which
is no directive) the claim predicts a backslash press/release pair; the code
emits only the press/release pair of x and no backslash report at all. -/
theorem c3_counterexample :
    (write_hid 9 allOk [92, 120] 0).1 =
      [Ev.epWrite [0, 0, 27, 0, 0, 0, 0, 0] true, Ev.sleep 10,
       Ev.epWrite kbd_clear true, Ev.sleep 10] ∧
    Ev.epWrite [0, 0, HID_KEY_BACKSLASH, 0, 0, 0, 0, 0] true ∉
      (write_hid 9 allOk [92, 120] 0).1 := by
  decide

/-- C3 amended: a marker byte followed by a byte that is none of the
directive letters n, t, r, c, s, u is silently dropped (no report is emitted
for it) and scanning resumes at position i+1, consuming exactly one byte. -/
theorem c3_amended (fuel : Nat) (o : Nat → Bool) (c : Nat)
    (rest : List Nat) (w : Nat) (h1 : c ≠ 110) (h2 : c ≠ 116) (h3 : c ≠ 114)
    (h4 : c ≠ 99) (h5 : c ≠ 115) (h6 : c ≠ 117) :
    write_hid (fuel + 1) o (92 :: c :: rest) w =
      write_hid fuel o (c :: rest) w := by
  simp [write_hid, h1, h2, h3, h4, h5, h6]

/-- C3 amended, witness at marker followed by letter x. -/
theorem c3_amended_witness :
    write_hid 6 allOk [92, 120] 0 = write_hid 5 allOk [120] 0 :=
  c3_amended 5 allOk 120 [] 0 (by decide) (by decide) (by decide) (by decide)
    (by decide) (by decide)

/-- C4 counterexample: with the first endpoint write failing, dispatching
marker-n followed by the letter a records the failed Enter write and still
emits the press report of a afterwards, so a write failure inside SendEnter
does not abort the remainder of the sequence. -/
theorem c4_counterexample :
    Ev.epWrite enter_cmd false ∈
      (write_hid 5 (fun w => w == 0) [92, 110, 97] 0).1 ∧
    Ev.epWrite [0, 0, 4, 0, 0, 0, 0, 0] true ∈
      (write_hid 5 (fun w => w == 0) [92, 110, 97] 0).1 := by
  decide

/-- C4 amended: only the checked writes abort the dispatch: a failing press
write for a translated literal byte ends the scan with no further events, and
a failing shared release write ends it right after that release attempt.
Failures of the writes issued for SendEnter, OpenTerminal, ToggleCapsLock
and OpenUrl are ignored and dispatch continues. -/
theorem c4_amended (fuel : Nat) (o : Nat → Bool) (b c : Nat)
    (rest : List Nat) (w k : Nat) (hb : b ≠ 92)
    (hk : ascii_to_hid b = some k) :
    (o w = true →
      write_hid (fuel + 1) o (b :: c :: rest) w =
        ([Ev.epWrite (press_report b k) false], w + 1)) ∧
    (o w = false → o (w + 1) = true →
      write_hid (fuel + 1) o (b :: c :: rest) w =
        ([Ev.epWrite (press_report b k) true, Ev.sleep 10,
          Ev.epWrite kbd_clear false], w + 2)) := by
  constructor
  · intro hw
    simp [write_hid, press_byte, hb, hk, hw]
  · intro hw hw1
    simp [write_hid, press_byte, common_release, hb, hk, hw, hw1]

/-- C4 amended, witness: with every write failing, the press of a aborts at
once and the following byte is never dispatched. -/
theorem c4_amended_witness :
    write_hid 3 (fun _ => true) [97, 98] 0 =
      ([Ev.epWrite (press_report 97 4) false], 1) :=
  (c4_amended 2 (fun _ => true) 97 98 [] 0 4 (by decide) (by decide)).1 rfl

/-- C5: over the whole printable range 0x20-0x7E the paired translator
agrees with the reference US-QWERTY table (in particular it is defined
everywhere there), every byte below 0x20 is unsupported, and the shifted
punctuation siblings bang and at-sign reuse the keycodes of the unshifted
digits 1 and 2 with the shift bit asserted by `needs_shift`. -/
theorem c5_translator_matches_reference :
    (∀ b, b < 127 →
      (32 ≤ b → translate b = usQwerty b ∧ (usQwerty b).isSome = true) ∧
      (b < 32 → translate b = none)) ∧
    ascii_to_hid 33 = ascii_to_hid 49 ∧ needs_shift 33 = true ∧
    needs_shift 49 = false ∧
    ascii_to_hid 64 = ascii_to_hid 50 ∧ needs_shift 64 = true ∧
    needs_shift 50 = false := by
  decide

/-- C5 witness at upper A and at the control byte 0x0A. -/
theorem c5_translator_witness :
    translate 65 = usQwerty 65 ∧ translate 10 = none :=
  ⟨((c5_translator_matches_reference.1 65 (by decide)).1 (by decide)).1,
   (c5_translator_matches_reference.1 10 (by decide)).2 (by decide)⟩

/-- C6: with all writes succeeding, a literal byte whose translation
succeeds contributes exactly the press report followed by the all-zero
release report (two endpoint writes) before the scan of the remaining bytes,
and a literal byte whose translation fails contributes no event at all. -/
theorem c6_press_emits_two_or_zero (fuel b : Nat) (rest : List Nat)
    (w : Nat) (hb : b ≠ 92 ∨ rest = []) :
    (∀ k, ascii_to_hid b = some k →
      (write_hid (fuel + 1) allOk (b :: rest) w).1 =
        press_events b k ++ (write_hid fuel allOk rest (w + 2)).1) ∧
    (ascii_to_hid b = none →
      (write_hid (fuel + 1) allOk (b :: rest) w).1 =
        (write_hid fuel allOk rest w).1) ∧
    (∀ k, (press_events b k).countP is_ep_write = 2) := by
  refine ⟨?_, ?_, ?_⟩
  · intro k hk
    cases rest with
    | nil =>
      simp [write_hid, press_byte, common_release, press_events, hk, allOk,
        write_hid_nil]
    | cons c rest2 =>
      have hb92 : b ≠ 92 := by
        rcases hb with h | h
        · exact h
        · simp at h
      simp [write_hid, press_byte, common_release, press_events, hk, hb92,
        allOk]
  · intro hk
    cases rest with
    | nil => simp [write_hid, press_byte, hk, write_hid_nil]
    | cons c rest2 =>
      have hb92 : b ≠ 92 := by
        rcases hb with h | h
        · exact h
        · simp at h
      simp [write_hid, press_byte, hk, hb92]
  · intro k
    simp [press_events, is_ep_write]

/-- C6 witness: the byte a emits its two reports; the control byte 0x0A
emits none. -/
theorem c6_press_witness :
    (write_hid 2 allOk [97] 0).1 =
      press_events 97 4 ++ (write_hid 1 allOk [] 2).1 ∧
    (write_hid 2 allOk [10] 0).1 = (write_hid 1 allOk [] 0).1 :=
  ⟨(c6_press_emits_two_or_zero 1 97 [] 0 (Or.inr rfl)).1 4 (by decide),
   (c6_press_emits_two_or_zero 1 10 [] 0 (Or.inr rfl)).2.1 (by decide)⟩

/-- C7 counterexample: dispatching the SendEnter escape alone emits three
keyboard reports, not two: the Enter report and clear report written by
`send_enter`, then one more clear report from the shared release path the
branch falls through to. -/
theorem c7_counterexample :
    (write_hid 2 allOk [92, 110] 0).1.countP is_ep_write = 3 ∧
    (write_hid 2 allOk [92, 110] 0).1 =
      [Ev.epWrite enter_cmd true, Ev.sleep 10, Ev.epWrite kbd_clear true,
       Ev.sleep 10, Ev.epWrite kbd_clear true, Ev.sleep 10] := by
  decide

/-- C7 amended: with all writes succeeding, SendEnter and OpenTerminal each
emit their fixed report, the clear report, and a second clear report from
the shared release path (three reports), while ToggleCapsLock emits exactly
its fixed report followed by one clear report (two reports). -/
theorem c7_amended (fuel : Nat) (rest : List Nat) (w : Nat) :
    ((write_hid (fuel + 1) allOk (92 :: 110 :: rest) w).1 =
      [Ev.epWrite enter_cmd true, Ev.sleep 10, Ev.epWrite kbd_clear true,
       Ev.sleep 10, Ev.epWrite kbd_clear true, Ev.sleep 10] ++
        (write_hid fuel allOk rest (w + 3)).1) ∧
    ((write_hid (fuel + 1) allOk (92 :: 116 :: rest) w).1 =
      [Ev.epWrite open_terminal_cmd true, Ev.sleep 10,
       Ev.epWrite kbd_clear true, Ev.sleep 10, Ev.epWrite kbd_clear true,
       Ev.sleep 10] ++ (write_hid fuel allOk rest (w + 3)).1) ∧
    ((write_hid (fuel + 1) allOk (92 :: 99 :: rest) w).1 =
      [Ev.epWrite toggle_caps_lock true, Ev.sleep 10,
       Ev.epWrite kbd_clear true, Ev.sleep 10] ++
        (write_hid fuel allOk rest (w + 2)).1) := by
  refine ⟨?_, ?_, ?_⟩ <;>
    simp [write_hid, send_enter, open_terminal, common_release, allOk]

/-- C8 counterexample: for the buffer marker-u marker-n the URL argument is
the two bytes marker n; typed verbatim this would include a backslash press
report and exactly one Enter report (the trailing SendEnter of the
compound), but the trace contains no backslash report and two Enter reports,
because the embedded command is re-scanned for escapes. -/
theorem c8_counterexample :
    Ev.epWrite [0, 0, HID_KEY_BACKSLASH, 0, 0, 0, 0, 0] true ∉
      (write_hid 15 allOk [92, 117, 92, 110] 0).1 ∧
    (write_hid 15 allOk [92, 117, 92, 110] 0).1.countP
      (fun e => e == Ev.epWrite enter_cmd true) = 2 := by
  decide

/-- C8 amended: the u directive ends the scan there; exactly the bytes after
the directive letter (none when the buffer ends at it) become the URL
argument, the stores into the fixed URL buffer are bounds-reported, and the
resulting OpenUrl feeds the shell command embedding the URL back through the
escape-scanning writer, so URL bytes are re-interpreted rather than typed
verbatim: the URL marker-n yields two Enter reports. -/
theorem c8_amended :
    (∀ fuel (o : Nat → Bool) (rest : List Nat) w,
      write_hid (fuel + 1) o (92 :: 117 :: rest) w =
        ((if 256 ≤ rest.length then [Ev.oobStore 256 rest.length] else []) ++
          (open_url fuel o rest w).1, (open_url fuel o rest w).2)) ∧
    (open_url 12 allOk [92, 110] 0).1.countP
      (fun e => e == Ev.epWrite enter_cmd true) = 2 :=
  ⟨write_hid_u_eq_open_url, by decide⟩

/-- C9: a marker byte that is the final byte of the buffer is typed through
the translator as a backslash press/release pair, both alone and at the end
of the buffer g o marker from the spec example. -/
theorem c9_trailing_marker_literal (fuel w : Nat) :
    (write_hid (fuel + 1) allOk [92] w).1 =
      [Ev.epWrite [0, 0, HID_KEY_BACKSLASH, 0, 0, 0, 0, 0] true, Ev.sleep 10,
       Ev.epWrite kbd_clear true, Ev.sleep 10] ∧
    (write_hid (fuel + 3) allOk [103, 111, 92] w).1 =
      press_events 103 10 ++ press_events 111 18 ++ press_events 92 49 := by
  constructor
  · simp [write_hid, press_byte, press_report, common_release, press_events,
      allOk, ascii_to_hid, needs_shift, HID_KEY_BACKSLASH]
  · simp [write_hid, press_byte, press_report, common_release, press_events,
      allOk, ascii_to_hid, needs_shift, write_hid_nil, HID_KEY_BACKSLASH]

set_option maxRecDepth 4096 in
/-- C10: a 258-byte buffer (within the 500-byte inbound maximum) whose
directive-u remainder has 256 bytes drives both fixed 256-byte buffers past
their ends: the url copy stores up to index 256 and the xdg-open command
store reaches index 265, so the bounds-checked store error branch is
reachable under the stated input bound. -/
theorem c10_url_overflow_reachable :
    (92 :: 117 :: List.replicate 256 97).length ≤ 500 ∧
    (write_hid 2 allOk (92 :: 117 :: List.replicate 256 97) 0).1.take 2 =
      [Ev.oobStore 256 256, Ev.oobStore 256 265] := by
  decide

end RevengeTool
